import Mathlib

/-!
Shallow embedding of a small Flask ping service (src/app.py) and its
companion sequential load-testing client (src/scripts/load_test.py),
together with theorems checking the natural-language specification
against the code.

The service side is modelled as a pure function of the outcome of the
hostname lookup; the load tester is modelled as a pure function of the
outcome of each HTTP probe, returning both the accumulated results and
the ordered trace of console events (progress notices and completed
probes).
-/

namespace PingApp

/-- Outcome of the call socket.gethostname() inside get_hostname: either
the operating system returns a hostname string, or the call raises. -/
inductive HostnameLookup where
  | ok (name : String)
  | raises
deriving DecidableEq

/-- get_hostname from src/app.py: returns socket.gethostname(), or the
sentinel "unknown" when the lookup raises; the exception is logged and
swallowed, never propagated. -/
def get_hostname : HostnameLookup → String
  | HostnameLookup.ok name => name
  | HostnameLookup.raises => "unknown"

/-- JSON body returned by the /api/ping handler. -/
structure PingBody where
  message : String
  hostname : String
deriving DecidableEq

/-- ping from src/app.py, the /api/ping handler: builds the JSON body
with message "pong" and the looked-up hostname; Flask returns it with
the default status 200. -/
def ping (env : HostnameLookup) : Nat × PingBody :=
  (200, ⟨"pong", get_hostname env⟩)

end PingApp

namespace LoadTest

/-- How far make_request can read the body of an HTTP response:
response.json() either raises (malformed body) or yields a JSON object
whose "hostname" field is present (some value) or absent (none). -/
inductive JsonBody where
  | malformed
  | json (hostname : Option String)
deriving DecidableEq

/-- Outcome of requests.get(url, ...) as seen by make_request: either the
call raises (network error, timeout, or any other exception), or it
yields a response with a status code and a body. -/
inductive GetOutcome where
  | raises
  | response (status : Nat) (body : JsonBody)
deriving DecidableEq

/-- make_request from src/scripts/load_test.py: on a 200 response whose
body parses, returns the body's hostname field (default "unknown" when
absent) with success; any non-200 status, or any exception raised by the
GET or by response.json(), yields the pair of the sentinel "error" and
failure. -/
def make_request (outcome : GetOutcome) : String × Bool :=
  match outcome with
  | GetOutcome.raises => ("error", false)
  | GetOutcome.response status body =>
      if status = 200 then
        match body with
        | JsonBody.malformed => ("error", false)
        | JsonBody.json hostname => (hostname.getD "unknown", true)
      else
        ("error", false)

/-- Console and HTTP events of the loop in run_load_test: a printed
progress notice carrying the displayed request number, or a completed
probe (one HTTP call) with its result. -/
inductive Event where
  | progress (i : Nat)
  | request (hostname : String) (success : Bool)
deriving DecidableEq

/-- True exactly on the events that correspond to an HTTP call. -/
def isRequest : Event → Bool
  | Event.progress _ => false
  | Event.request _ _ => true

/-- What run_load_test produces: the hostnames of the successful probes
in order, the success and failure tallies, and the ordered trace of
progress notices and completed probes. -/
structure RunResult where
  hostnames : List String
  successful_requests : Nat
  failed_requests : Nat
  events : List Event
deriving DecidableEq

/-- The loop of run_load_test starting at iteration index i (Python's i
in range(num_requests)), applied to the outcomes of the remaining
probes.  When (i + 1) % 10 == 0 or i == 0 the progress notice showing
i + 1 is printed first, before the probe is made; then the probe
completes and exactly one of the two tallies is incremented, the
hostname being recorded exactly on success. -/
def run_loop : Nat → List GetOutcome → RunResult
  | _, [] => ⟨[], 0, 0, []⟩
  | i, outcome :: rest =>
      let pre : List Event :=
        if (i + 1) % 10 = 0 ∨ i = 0 then [Event.progress (i + 1)] else []
      let res := make_request outcome
      let r := run_loop (i + 1) rest
      if res.2 then
        ⟨res.1 :: r.hostnames, r.successful_requests + 1, r.failed_requests,
          pre ++ Event.request res.1 res.2 :: r.events⟩
      else
        ⟨r.hostnames, r.successful_requests, r.failed_requests + 1,
          pre ++ Event.request res.1 res.2 :: r.events⟩

/-- run_load_test from src/scripts/load_test.py, as a function of the
outcome of each of the num_requests probes. -/
def run_load_test (outcomes : List GetOutcome) : RunResult :=
  run_loop 0 outcomes

/-- The hostnames of the successful probes, in order, read directly off
the probe outcomes. -/
def observedSuccessHostnames (outcomes : List GetOutcome) : List String :=
  outcomes.filterMap
    (fun o => if (make_request o).2 then some (make_request o).1 else none)

/-- The keys of collections.Counter(hostnames): the distinct hostnames
in order of first occurrence. -/
def counterKeys : List String → List String
  | [] => []
  | h :: t => h :: (counterKeys t).filter (fun x => x != h)

/-- The distribution analysis printed by analyze_results when
successful_requests > 0: the node list (Counter keys), the count of
available nodes, and for each node its request count and percentage of
the successful requests. -/
structure Analysis where
  node_list : List String
  available_nodes : Nat
  per_node : List (String × Nat × Rat)

/-- The report printed by analyze_results: total request count, success
rate in percent, and the distribution analysis, which is none exactly
when successful_requests == 0 (the script then prints that there are no
successful requests to analyze). -/
structure Report where
  total_requests : Nat
  success_rate : Rat
  analysis : Option Analysis

/-- analyze_results from src/scripts/load_test.py.  The success rate is
successful / total * 100 guarded by total > 0; the analysis is produced
only when successful_requests > 0, from Counter(hostnames). -/
def analyze_results (hostnames : List String)
    (successful_requests failed_requests : Nat) : Report :=
  let total_requests := successful_requests + failed_requests
  let success_rate : Rat :=
    if total_requests > 0 then
      (successful_requests : Rat) / (total_requests : Rat) * 100
    else 0
  let analysis : Option Analysis :=
    if successful_requests > 0 then
      some ⟨counterKeys hostnames, (counterKeys hostnames).length,
        (counterKeys hostnames).map
          (fun h => (h, hostnames.count h,
            ((hostnames.count h : Rat) / (successful_requests : Rat)) * 100))⟩
    else none
  ⟨total_requests, success_rate, analysis⟩

/-- What a run of main produces, as a function of the parsed --requests
value and of the outcomes of the probes the loop would make: the process
exit code, the ordered event trace, and the final report (none when main
exits before running the load test). -/
structure MainResult where
  exit_code : Nat
  events : List Event
  report : Option Report

/-- main from src/scripts/load_test.py: when the parsed request count is
at most 0 it prints an error and exits with status 1 before run_load_test
is invoked; otherwise it runs the load test and analyzes the results. -/
def main (requests : Int) (outcomes : List GetOutcome) : MainResult :=
  if requests ≤ 0 then
    ⟨1, [], none⟩
  else
    let r := run_load_test outcomes
    ⟨0, r.events,
      some (analyze_results r.hostnames r.successful_requests r.failed_requests)⟩

/-- Walks an event trace keeping a tally of completed probes, and checks
every progress notice against that tally: f completedSoFar noticeValue
must hold at each notice. -/
def progressChecks (f : Nat → Nat → Bool) : Nat → List Event → Bool
  | _, [] => true
  | c, Event.progress i :: rest => f c i && progressChecks f c rest
  | c, Event.request _ _ :: rest => progressChecks f (c + 1) rest

end LoadTest

open PingApp LoadTest

/-- C2 counterexample: a probe whose response has status 200 but a
malformed body (response.json() raises) is NOT defaulted to "unknown"
with success; the exception is caught and the probe is treated as a
failure, returning the pair of "error" and false. -/
theorem claim_C2_counterexample :
    make_request (GetOutcome.response 200 JsonBody.malformed) = ("error", false) ∧
    make_request (GetOutcome.response 200 JsonBody.malformed) ≠ ("unknown", true) :=
  ⟨rfl, by decide⟩

/-- C2 (amended): a status-200 response whose body parses as JSON but
lacks the "hostname" field is treated as an absent hostname and
defaulted to "unknown" with success; a status-200 response whose body is
malformed (fails to parse) is instead treated as a failed probe,
returning the pair of "error" and false. -/
theorem claim_C2 :
    make_request (GetOutcome.response 200 (JsonBody.json none)) = ("unknown", true) ∧
    make_request (GetOutcome.response 200 JsonBody.malformed) = ("error", false) :=
  ⟨rfl, rfl⟩

/-- C3: a GET that raises, and any non-200 response, yield the pair of
"error" and false; a 200 response whose body parses yields the body's
hostname field (default "unknown" when absent) and true. -/
theorem claim_C3 :
    make_request GetOutcome.raises = ("error", false) ∧
    (∀ status body, status ≠ 200 →
      make_request (GetOutcome.response status body) = ("error", false)) ∧
    (∀ hostname, make_request (GetOutcome.response 200 (JsonBody.json hostname)) =
      (hostname.getD "unknown", true)) := by
  refine ⟨rfl, ?_, ?_⟩
  · intro status body hs
    simp [make_request, hs]
  · intro hostname
    simp [make_request]

/-- C3 witness: the three cases evaluated at concrete inputs. -/
theorem claim_C3_witness :
    ((404 : Nat) ≠ 200 ∧
      make_request (GetOutcome.response 404 JsonBody.malformed) = ("error", false)) ∧
    make_request (GetOutcome.response 200 (JsonBody.json (some "node-a"))) =
      ((some "node-a").getD "unknown", true) :=
  ⟨⟨by decide, claim_C3.2.1 404 JsonBody.malformed (by decide)⟩,
    claim_C3.2.2 (some "node-a")⟩

/-- C4: with zero successful requests the success rate reported by
analyze_results is 0 (also when no requests were made at all), and the
distribution analysis is skipped (none). -/
theorem claim_C4 (hostnames : List String) (failed_requests : Nat) :
    (analyze_results hostnames 0 failed_requests).success_rate = 0 ∧
    (analyze_results hostnames 0 failed_requests).analysis = none := by
  constructor
  · simp [analyze_results]
  · simp [analyze_results]

/-- C5: a parsed request count of at most zero makes main exit with a
non-zero status, with no HTTP call made and no report produced. -/
theorem claim_C5 (requests : Int) (outcomes : List GetOutcome)
    (h : requests ≤ 0) :
    (main requests outcomes).exit_code ≠ 0 ∧
    ((main requests outcomes).events.countP isRequest = 0) ∧
    (main requests outcomes).report = none := by
  simp [main, h]

/-- C5 witness: concrete rejected request counts 0 and -5. -/
theorem claim_C5_witness :
    ((0 : Int) ≤ 0 ∧
      (main 0 [GetOutcome.raises]).exit_code ≠ 0 ∧
      ((main 0 [GetOutcome.raises]).events.countP isRequest = 0) ∧
      (main 0 [GetOutcome.raises]).report = none) ∧
    ((-5 : Int) ≤ 0 ∧
      (main (-5) []).exit_code ≠ 0 ∧
      ((main (-5) []).events.countP isRequest = 0) ∧
      (main (-5) []).report = none) :=
  ⟨⟨by decide, claim_C5 0 [GetOutcome.raises] (by decide)⟩,
    ⟨by decide, claim_C5 (-5) [] (by decide)⟩⟩

/-- Loop invariant of run_load_test: however the probes turn out, each
iteration increments exactly one tally, and records a hostname exactly
when it increments the success tally. -/
theorem run_loop_counts (os : List GetOutcome) : ∀ i : Nat,
    (run_loop i os).successful_requests + (run_loop i os).failed_requests = os.length ∧
    (run_loop i os).hostnames.length = (run_loop i os).successful_requests := by
  induction os with
  | nil => intro i; simp [run_loop]
  | cons o rest ih =>
      intro i
      have h := ih (i + 1)
      by_cases hs : (make_request o).2 <;>
        simp [run_loop, hs] <;> omega

/-- The hostnames accumulated by the loop are exactly the hostnames of
the successful probes, in order, independently of the start index. -/
theorem run_loop_hostnames (os : List GetOutcome) : ∀ i : Nat,
    (run_loop i os).hostnames = observedSuccessHostnames os := by
  induction os with
  | nil => intro i; simp [run_loop, observedSuccessHostnames]
  | cons o rest ih =>
      intro i
      by_cases hs : (make_request o).2 <;>
        simp [run_loop, observedSuccessHostnames, List.filterMap_cons, hs, ih (i + 1)]

/-- C8: a completed run of n probes has successes plus failures equal to
n, and as many recorded hostnames as successes. -/
theorem claim_C8 (outcomes : List GetOutcome) :
    (run_load_test outcomes).successful_requests +
      (run_load_test outcomes).failed_requests = outcomes.length ∧
    (run_load_test outcomes).hostnames.length =
      (run_load_test outcomes).successful_requests :=
  run_loop_counts outcomes 0

/-- C9: every exception inside a probe is absorbed by make_request into
the failure result, and a raising probe anywhere in the run leaves the
loop processing all remaining probes: the tallies still account for
every single probe. -/
theorem claim_C9 :
    make_request GetOutcome.raises = ("error", false) ∧
    make_request (GetOutcome.response 200 JsonBody.malformed) = ("error", false) ∧
    ∀ pre post : List GetOutcome,
      (run_load_test (pre ++ GetOutcome.raises :: post)).successful_requests +
        (run_load_test (pre ++ GetOutcome.raises :: post)).failed_requests =
      pre.length + 1 + post.length := by
  refine ⟨rfl, rfl, ?_⟩
  intro pre post
  have h := (run_loop_counts (pre ++ GetOutcome.raises :: post) 0).1
  simp [run_load_test] at h ⊢
  omega

/-- Membership in the Counter keys is membership in the hostname list. -/
theorem mem_counterKeys (a : String) (l : List String) :
    a ∈ counterKeys l ↔ a ∈ l := by
  induction l with
  | nil => simp [counterKeys]
  | cons h t ih =>
      by_cases hah : a = h
      · simp [counterKeys, hah]
      · simp [counterKeys, List.mem_filter, hah, ih]

/-- The Counter keys are distinct. -/
theorem nodup_counterKeys (l : List String) : (counterKeys l).Nodup := by
  induction l with
  | nil => simp [counterKeys]
  | cons h t ih =>
      rw [counterKeys, List.nodup_cons]
      constructor
      · intro hmem
        have h2 := (List.mem_filter.1 hmem).2
        simp at h2
      · exact List.Nodup.filter _ ih

/-- Summing an equality indicator over a list counts the occurrences. -/
theorem sum_map_ite_count (a : String) (K : List String) :
    (K.map (fun k => if a = k then (1 : Nat) else 0)).sum = K.count a := by
  induction K with
  | nil => simp
  | cons k K ih =>
      simp only [List.map_cons, List.sum_cons, List.count_cons, ih]
      by_cases hka : a = k
      · simp [hka]
        omega
      · simp [hka]
        exact fun he => hka he.symm

/-- Pointwise sums distribute over the sum of a mapped list. -/
theorem sum_map_add_distrib (K : List String) (f g : String → Nat) :
    (K.map (fun k => f k + g k)).sum = (K.map f).sum + (K.map g).sum := by
  induction K with
  | nil => rfl
  | cons k K ih => simp [ih]; omega

/-- Summing the multiplicities of the elements of a duplicate-free list
K that covers a list l recovers the length of l. -/
theorem sum_counts_of_nodup (K : List String) (hK : K.Nodup) :
    ∀ l : List String, (∀ x, x ∈ l → x ∈ K) →
      (K.map (fun k => l.count k)).sum = l.length := by
  intro l
  induction l with
  | nil => intro _; simp
  | cons a t ih =>
      intro hsub
      have haK : a ∈ K := hsub a (List.mem_cons_self a t)
      have hstep : (K.map (fun k => (a :: t).count k)).sum
          = (K.map (fun k => t.count k + if a = k then (1 : Nat) else 0)).sum := by
        refine congrArg List.sum (List.map_congr_left ?_)
        intro k _
        simp [List.count_cons]
      rw [hstep, sum_map_add_distrib, sum_map_ite_count,
        ih (fun x hx => hsub x (List.mem_cons_of_mem a hx)),
        List.count_eq_one_of_mem hK haK, List.length_cons]

/-- The per-key counts of Counter(l) sum to the length of l. -/
theorem sum_counterKeys_counts (l : List String) :
    ((counterKeys l).map (fun k => l.count k)).sum = l.length :=
  sum_counts_of_nodup (counterKeys l) (nodup_counterKeys l) l
    (fun x hx => (mem_counterKeys x l).2 hx)

/-- The number of Counter keys is the number of distinct elements. -/
theorem length_counterKeys_eq_dedup (l : List String) :
    (counterKeys l).length = l.dedup.length := by
  induction l with
  | nil => simp [counterKeys]
  | cons h t ih =>
      by_cases hmem : h ∈ t
      · rw [counterKeys, List.dedup_cons_of_mem hmem, ← ih]
        have hmemK : h ∈ counterKeys t := (mem_counterKeys h t).2 hmem
        have hperm : List.Perm (counterKeys t) (h :: (counterKeys t).erase h) :=
          List.perm_cons_erase hmemK
        have herase : (counterKeys t).erase h =
            (counterKeys t).filter (fun x => x != h) :=
          List.Nodup.erase_eq_filter (nodup_counterKeys t) h
        have hlen := hperm.length_eq
        rw [herase] at hlen
        simp only [List.length_cons] at hlen ⊢
        omega
      · rw [counterKeys, List.dedup_cons_of_not_mem hmem]
        have hK : h ∉ counterKeys t := fun hc => hmem ((mem_counterKeys h t).1 hc)
        have hfil : (counterKeys t).filter (fun x => x != h) = counterKeys t := by
          refine List.filter_eq_self.2 ?_
          intro x hx
          simp only [bne_iff_ne, ne_eq]
          intro he
          exact hK (he ▸ hx)
        rw [List.length_cons, hfil, ih, List.length_cons]

/-- A duplicate-free list is one longer than itself with one of its
members filtered out. -/
theorem length_eq_filter_length_add_one (K : List String) (hK : K.Nodup)
    (a : String) (ha : a ∈ K) :
    K.length = (K.filter (fun x => x != a)).length + 1 := by
  have hperm : List.Perm K (a :: K.erase a) := List.perm_cons_erase ha
  have herase : K.erase a = K.filter (fun x => x != a) :=
    List.Nodup.erase_eq_filter hK a
  have hlen := hperm.length_eq
  rw [herase] at hlen
  simp only [List.length_cons] at hlen
  omega

/-- C1: whenever at least one probe succeeds, the frequency table built
by analyze_results over the accumulated hostnames has per-node counts
summing to the number of successful requests, and its key count (the
reported Available Nodes) equals the number of distinct hostnames
observed among the successful probes. -/
theorem claim_C1 (outcomes : List GetOutcome)
    (h : 1 ≤ (run_load_test outcomes).successful_requests) :
    ∃ a : Analysis,
      (analyze_results (run_load_test outcomes).hostnames
        (run_load_test outcomes).successful_requests
        (run_load_test outcomes).failed_requests).analysis = some a ∧
      (a.per_node.map (fun e => e.2.1)).sum =
        (run_load_test outcomes).successful_requests ∧
      a.available_nodes = (observedSuccessHostnames outcomes).dedup.length := by
  have hpos : 0 < (run_load_test outcomes).successful_requests := h
  have hlen : (run_load_test outcomes).hostnames.length =
      (run_load_test outcomes).successful_requests :=
    (run_loop_counts outcomes 0).2
  have hhost : (run_load_test outcomes).hostnames =
      observedSuccessHostnames outcomes :=
    run_loop_hostnames outcomes 0
  refine ⟨⟨counterKeys (run_load_test outcomes).hostnames,
    (counterKeys (run_load_test outcomes).hostnames).length,
    (counterKeys (run_load_test outcomes).hostnames).map
      (fun h2 => (h2, (run_load_test outcomes).hostnames.count h2,
        (((run_load_test outcomes).hostnames.count h2 : Rat) /
          ((run_load_test outcomes).successful_requests : Rat)) * 100))⟩,
    ?_, ?_, ?_⟩
  · simp [analyze_results, hpos]
  · rw [List.map_map]
    have hcomp : ((fun e : String × Nat × Rat => e.2.1) ∘
        (fun h2 => (h2, (run_load_test outcomes).hostnames.count h2,
          (((run_load_test outcomes).hostnames.count h2 : Rat) /
            ((run_load_test outcomes).successful_requests : Rat)) * 100))) =
        fun h2 => (run_load_test outcomes).hostnames.count h2 := rfl
    rw [hcomp, sum_counterKeys_counts, hlen]
  · rw [← hhost]
    exact length_counterKeys_eq_dedup (run_load_test outcomes).hostnames

/-- C1 witness: a run of four probes, three successful over two distinct
hostnames. -/
theorem claim_C1_witness :
    1 ≤ (run_load_test [GetOutcome.response 200 (JsonBody.json (some "node-a")),
      GetOutcome.raises,
      GetOutcome.response 200 (JsonBody.json (some "node-b")),
      GetOutcome.response 200 (JsonBody.json (some "node-a"))]).successful_requests ∧
    ∃ a : Analysis,
      (analyze_results
        (run_load_test [GetOutcome.response 200 (JsonBody.json (some "node-a")),
          GetOutcome.raises,
          GetOutcome.response 200 (JsonBody.json (some "node-b")),
          GetOutcome.response 200 (JsonBody.json (some "node-a"))]).hostnames
        (run_load_test [GetOutcome.response 200 (JsonBody.json (some "node-a")),
          GetOutcome.raises,
          GetOutcome.response 200 (JsonBody.json (some "node-b")),
          GetOutcome.response 200 (JsonBody.json (some "node-a"))]).successful_requests
        (run_load_test [GetOutcome.response 200 (JsonBody.json (some "node-a")),
          GetOutcome.raises,
          GetOutcome.response 200 (JsonBody.json (some "node-b")),
          GetOutcome.response 200 (JsonBody.json (some "node-a"))]).failed_requests).analysis
          = some a ∧
      (a.per_node.map (fun e => e.2.1)).sum =
        (run_load_test [GetOutcome.response 200 (JsonBody.json (some "node-a")),
          GetOutcome.raises,
          GetOutcome.response 200 (JsonBody.json (some "node-b")),
          GetOutcome.response 200 (JsonBody.json (some "node-a"))]).successful_requests ∧
      a.available_nodes =
        (observedSuccessHostnames [GetOutcome.response 200 (JsonBody.json (some "node-a")),
          GetOutcome.raises,
          GetOutcome.response 200 (JsonBody.json (some "node-b")),
          GetOutcome.response 200 (JsonBody.json (some "node-a"))]).dedup.length :=
  ⟨by decide,
    claim_C1 [GetOutcome.response 200 (JsonBody.json (some "node-a")),
      GetOutcome.raises,
      GetOutcome.response 200 (JsonBody.json (some "node-b")),
      GetOutcome.response 200 (JsonBody.json (some "node-a"))] (by decide)⟩

/-- C10: a 200 response whose JSON body lacks the "hostname" field
counts as a success with hostname "unknown", and "unknown" then shows up
as a node of its own in the distribution report, contributing exactly
one to the reported count of available nodes. -/
theorem claim_C10 :
    make_request (GetOutcome.response 200 (JsonBody.json none)) = ("unknown", true) ∧
    ∀ (hostnames : List String) (failed_requests : Nat),
      "unknown" ∈ hostnames →
      ∃ a : Analysis,
        (analyze_results hostnames hostnames.length failed_requests).analysis
          = some a ∧
        "unknown" ∈ a.node_list ∧
        a.available_nodes =
          ((counterKeys hostnames).filter (fun x => x != "unknown")).length + 1 := by
  refine ⟨rfl, ?_⟩
  intro hostnames failed_requests hmem
  have hpos : 0 < hostnames.length := List.length_pos.2 (List.ne_nil_of_mem hmem)
  have hkey : "unknown" ∈ counterKeys hostnames :=
    (mem_counterKeys "unknown" hostnames).2 hmem
  refine ⟨⟨counterKeys hostnames, (counterKeys hostnames).length,
    (counterKeys hostnames).map
      (fun h => (h, hostnames.count h,
        ((hostnames.count h : Rat) / (hostnames.length : Rat)) * 100))⟩,
    ?_, hkey, ?_⟩
  · simp [analyze_results, hpos]
  · exact length_eq_filter_length_add_one (counterKeys hostnames)
      (nodup_counterKeys hostnames) "unknown" hkey

/-- C10 witness: a hostname list in which "unknown" was observed. -/
theorem claim_C10_witness :
    "unknown" ∈ ["unknown", "node-a", "unknown"] ∧
    ∃ a : Analysis,
      (analyze_results ["unknown", "node-a", "unknown"]
        (["unknown", "node-a", "unknown"] : List String).length 1).analysis = some a ∧
      "unknown" ∈ a.node_list ∧
      a.available_nodes =
        ((counterKeys ["unknown", "node-a", "unknown"]).filter
          (fun x => x != "unknown")).length + 1 :=
  ⟨by decide, claim_C10.2 ["unknown", "node-a", "unknown"] 1 (by decide)⟩

/-- C7: under the environment assumption that the operating system
reports a non-empty hostname whenever the lookup succeeds, every GET of
/api/ping yields status 200, message "pong" and a non-empty hostname;
a failing lookup is replaced by the non-empty sentinel "unknown" instead
of propagating. -/
theorem claim_C7 (env : HostnameLookup)
    (h : ∀ name, env = HostnameLookup.ok name → name ≠ "") :
    (ping env).1 = 200 ∧
    (ping env).2.message = "pong" ∧
    (ping env).2.hostname ≠ "" := by
  refine ⟨rfl, rfl, ?_⟩
  cases env with
  | ok name => exact h name rfl
  | raises => simp [ping, get_hostname]

/-- C7 witness: the ping handler evaluated with a failing hostname
lookup. -/
theorem claim_C7_witness :
    (∀ name, HostnameLookup.raises = HostnameLookup.ok name → name ≠ "") ∧
    ((ping HostnameLookup.raises).1 = 200 ∧
      (ping HostnameLookup.raises).2.message = "pong" ∧
      (ping HostnameLookup.raises).2.hostname ≠ "") :=
  ⟨(fun _ h => nomatch h), claim_C7 HostnameLookup.raises (fun _ h => nomatch h)⟩

/-- The event trace of one loop iteration: the optional progress notice
(printed before the probe), then the completed probe, then the rest. -/
theorem run_loop_events (i : Nat) (o : GetOutcome) (rest : List GetOutcome) :
    (run_loop i (o :: rest)).events =
      (if (i + 1) % 10 = 0 ∨ i = 0 then [Event.progress (i + 1)] else []) ++
        Event.request (make_request o).1 (make_request o).2 ::
          (run_loop (i + 1) rest).events := by
  by_cases hres : (make_request o).2 <;> simp [run_loop, hres]

/-- At every progress notice emitted by the loop started at iteration
index i, the tally of completed probes equals the iteration index, one
less than the displayed request number: the notice for request j is
printed before probe j is made. -/
theorem progressChecks_run_loop (os : List GetOutcome) : ∀ i : Nat,
    progressChecks (fun c j => c + 1 == j) i (run_loop i os).events = true := by
  induction os with
  | nil => intro i; simp [run_loop, progressChecks]
  | cons o rest ih =>
      intro i
      rw [run_loop_events]
      by_cases hcond : (i + 1) % 10 = 0 ∨ i = 0
      · rw [if_pos hcond]
        simp [progressChecks, ih (i + 1)]
      · rw [if_neg hcond]
        simp [progressChecks, ih (i + 1)]

/-- The progress notices emitted by the loop started at iteration index
i are exactly those for request numbers j with i < j ≤ i + n, j a
multiple of 10 or the very first request. -/
theorem progress_mem_run_loop (os : List GetOutcome) : ∀ i j : Nat,
    (Event.progress j ∈ (run_loop i os).events ↔
      (i < j ∧ j ≤ i + os.length ∧ (j % 10 = 0 ∨ j = 1))) := by
  induction os with
  | nil =>
      intro i j
      simp [run_loop]
      omega
  | cons o rest ih =>
      intro i j
      rw [run_loop_events]
      by_cases hcond : (i + 1) % 10 = 0 ∨ i = 0
      · rw [if_pos hcond]
        simp only [List.cons_append, List.nil_append, List.mem_cons,
          Event.progress.injEq, ih (i + 1) j, List.length_cons]
        constructor
        · intro hc
          rcases hc with hj | hj | hj
          · omega
          · exact absurd hj (by simp)
          · omega
        · intro hc
          omega
      · rw [if_neg hcond]
        simp only [List.nil_append, List.mem_cons, ih (i + 1) j,
          List.length_cons]
        constructor
        · intro hc
          rcases hc with hj | hj
          · exact absurd hj (by simp)
          · omega
        · intro hc
          omega

/-- C6 counterexample: in a one-probe run a progress notice for request
1 is emitted, but not only once request 1 has completed — at the moment
of the notice zero probes have completed, so the claimed check (at each
notice for request j, at least j probes have completed) fails. -/
theorem claim_C6_counterexample :
    Event.progress 1 ∈ (run_load_test [GetOutcome.raises]).events ∧
    progressChecks (fun c j => decide (j ≤ c)) 0
      (run_load_test [GetOutcome.raises]).events = false := by
  decide

/-- C6 (amended): the progress notice for request j (j = 1 and every
multiple of 10 up to n) is emitted before request j is made, not after
it completes: at each notice for request j exactly j - 1 probes have
completed, and the notices present are exactly those for j = 1 and the
multiples of 10 within the run. -/
theorem claim_C6 (outcomes : List GetOutcome) :
    progressChecks (fun c j => c + 1 == j) 0 (run_load_test outcomes).events = true ∧
    ∀ j : Nat, (Event.progress j ∈ (run_load_test outcomes).events ↔
      (1 ≤ j ∧ j ≤ outcomes.length ∧ (j % 10 = 0 ∨ j = 1))) := by
  constructor
  · exact progressChecks_run_loop outcomes 0
  · intro j
    simpa using progress_mem_run_loop outcomes 0 j
